import Mathlib

/-!
Verification of the status-category client (src/cloud/statuscategory.go).

The file embeds the two operations of the `StatusCategoryService`
(`GetList` and `Get`) over an explicit Transport model.  The Transport
itself (`client.NewRequest`, `client.Do`, `NewJiraError`, `Response`) is
code of the repository that is not part of the analysed source file, so it
is modelled from the specification's collaborator contract; every such
definition carries a doc comment saying so.  The two operations themselves
are translated line by line from the source.  Each operation also returns
the trace of Transport calls it made, so that "makes zero network calls"
and "issues exactly one GET" become statable properties.
-/

/-- The `StatusCategory` record of the source, with its five fields.  The
JSON tags of the source are `self`, `id`, `name`, `key`, `colorName`. -/
structure StatusCategory where
  Self : String
  ID : Int
  Name : String
  Key : String
  ColorName : String
deriving Repr, DecidableEq

/-- The zero value of the Go struct `StatusCategory` (what `new(StatusCategory)`
and `var x StatusCategory` produce). -/
def zeroStatusCategory : StatusCategory :=
  { Self := "", ID := 0, Name := "", Key := "", ColorName := "" }

/-- Source constant: key of the default "complete" status category. -/
def StatusCategoryComplete : String := "done"

/-- Source constant: key of the default "in progress" status category. -/
def StatusCategoryInProgress : String := "indeterminate"

/-- Source constant: key of the default "to do" status category. -/
def StatusCategoryToDo : String := "new"

/-- Source constant: key of the undefined status category. -/
def StatusCategoryUndefined : String := "undefined"

/-- JSON values, used to model response bodies and their deserialization. -/
inductive Json where
  | null : Json
  | bool (b : Bool) : Json
  | num (n : Int) : Json
  | str (s : String) : Json
  | arr (elems : List Json) : Json
  | obj (fields : List (String × Json)) : Json
deriving Repr

/-- Modelled from the spec: response metadata, the non-body portion of an
HTTP response (status, headers).  Only the status code is carried here. -/
structure Response where
  statusCode : Nat
deriving Repr, DecidableEq

/-- Go errors, as far as this component observes them: an opaque message
(`errors.New`, transport faults, deserialization faults), or the structured
API error built by `NewJiraError`. -/
inductive GoError where
  | errMsg (msg : String) : GoError
  | jiraError (resp : Option Response) (cause : GoError) : GoError
deriving Repr, DecidableEq

/-- Modelled from the spec: `NewJiraError` (not part of the analysed file)
wraps the response metadata together with the causing error, so the caller
can inspect status code, headers and body for diagnostics. -/
def NewJiraError (resp : Option Response) (e : GoError) : GoError :=
  GoError.jiraError resp e

/-- A prepared HTTP request: method, URL path and optional body, exactly as
handed to the Transport's request builder. -/
structure Request where
  method : String
  url : String
  body : Option Json
deriving Repr

/-- One Transport call made by an operation: either building a request
(`client.NewRequest`) or executing one (`client.Do`). -/
inductive Call where
  | mkRequest (method url : String) (body : Option Json) : Call
  | doCall (req : Request) : Call
deriving Repr

/-- Modelled from the spec: outcome of executing a request.  `success`
carries the response and the JSON body to be deserialized into the target;
`failure` covers both a transport-level fault (no response) and a non-2xx
HTTP status (response present, status at least 300), the two cases in which
`Do` returns a non-nil error. -/
inductive DoOutcome where
  | success (resp : Response) (body : Json) : DoOutcome
  | failure (resp : Option Response) (e : GoError) : DoOutcome
deriving Repr

/-- Modelled from the spec: the shared Transport collaborator.
`newRequestErr m u b` is the error with which request construction fails
(`none` means it succeeds and yields the request built from `m`, `u`, `b`);
`doReq` executes a prepared request. -/
structure Client where
  newRequestErr : String → String → Option Json → Option GoError
  doReq : Request → DoOutcome

/-- Modelled from the spec: `client.NewRequest` builds a preparable request
from a method, a path and an optional body, or fails with an error. -/
def Client.mkRequest (c : Client) (method url : String) (body : Option Json) :
    Except GoError Request :=
  match c.newRequestErr method url body with
  | some e => Except.error e
  | none => Except.ok { method := method, url := url, body := body }

/-- Case-sensitive lookup of a field in a JSON object, per the declared
field mapping of the spec. -/
def Json.lookupField : List (String × Json) → String → Option Json
  | [], _ => none
  | (k, v) :: rest, key => if k = key then some v else Json.lookupField rest key

/-- Modelled from the spec: deserialize a string-valued JSON field into a
struct field, leaving the previous value when the field is absent or null. -/
def decodeStringField (fields : List (String × Json)) (key : String)
    (prev : String) : Except GoError String :=
  match Json.lookupField fields key with
  | none => Except.ok prev
  | some (Json.str s) => Except.ok s
  | some Json.null => Except.ok prev
  | some _ => Except.error (GoError.errMsg "json: cannot unmarshal value into string field")

/-- Modelled from the spec: deserialize a numeric JSON field into a struct
field, leaving the previous value when the field is absent or null. -/
def decodeIntField (fields : List (String × Json)) (key : String)
    (prev : Int) : Except GoError Int :=
  match Json.lookupField fields key with
  | none => Except.ok prev
  | some (Json.num n) => Except.ok n
  | some Json.null => Except.ok prev
  | some _ => Except.error (GoError.errMsg "json: cannot unmarshal value into int field")

/-- Modelled from the spec: the Transport deserializes a JSON object into a
`StatusCategory` target using the case-sensitive field names `self`, `id`,
`name`, `key`, `colorName`; a JSON null leaves the target unchanged; any
other shape is a deserialization error. -/
def decodeStatusCategoryInto (v : StatusCategory) : Json → Except GoError StatusCategory
  | Json.null => Except.ok v
  | Json.obj fields => do
      let self ← decodeStringField fields "self" v.Self
      let id ← decodeIntField fields "id" v.ID
      let name ← decodeStringField fields "name" v.Name
      let key ← decodeStringField fields "key" v.Key
      let colorName ← decodeStringField fields "colorName" v.ColorName
      Except.ok { Self := self, ID := id, Name := name, Key := key, ColorName := colorName }
  | _ => Except.error (GoError.errMsg "json: cannot unmarshal value into StatusCategory")

/-- Modelled from the spec: the Transport deserializes a JSON array into a
slice of `StatusCategory` in server-provided order; a JSON null leaves the
slice target nil (`none`); any other shape is a deserialization error. -/
def decodeStatusCategoryList : Json → Except GoError (Option (List StatusCategory))
  | Json.null => Except.ok none
  | Json.arr elems => do
      let cats ← elems.mapM (decodeStatusCategoryInto zeroStatusCategory)
      Except.ok (some cats)
  | _ => Except.error (GoError.errMsg "json: cannot unmarshal value into slice")

/-- Modelled from the spec: `client.Do` on a slice target — executes the
request and, on success, deserializes the body into the slice; returns the
response metadata together with the outcome. -/
def Client.doIntoList (c : Client) (req : Request) :
    Option Response × Except GoError (Option (List StatusCategory)) :=
  match c.doReq req with
  | DoOutcome.success resp body => (some resp, decodeStatusCategoryList body)
  | DoOutcome.failure resp e => (resp, Except.error e)

/-- Modelled from the spec: `client.Do` on a fresh `*StatusCategory` target —
executes the request and, on success, deserializes the body into the
zero-valued struct; returns the response metadata together with the outcome. -/
def Client.doIntoStatusCategory (c : Client) (req : Request) :
    Option Response × Except GoError StatusCategory :=
  match c.doReq req with
  | DoOutcome.success resp body => (some resp, decodeStatusCategoryInto zeroStatusCategory body)
  | DoOutcome.failure resp e => (resp, Except.error e)

/-- Result of `GetList`: the Go triple `([]StatusCategory, *Response, error)`
(`none` models a nil slice / nil pointer) plus the trace of Transport calls. -/
structure GetListResult where
  categories : Option (List StatusCategory)
  resp : Option Response
  err : Option GoError
  calls : List Call
deriving Repr

/-- Result of `Get`: the Go triple `(*StatusCategory, *Response, error)`
(`none` models a nil pointer) plus the trace of Transport calls. -/
structure GetResult where
  category : Option StatusCategory
  resp : Option Response
  err : Option GoError
  calls : List Call
deriving Repr

namespace StatusCategoryService

/-- `GetList` from the source: builds a GET request for the fixed endpoint
`/rest/api/3/statuscategory` with nil body; a construction error is returned
as-is with nil slice and nil response; a `Do` error is wrapped with
`NewJiraError` and returned with nil slice and the response; otherwise the
deserialized slice, the response and nil error are returned. -/
def GetList (c : Client) : GetListResult :=
  let apiEndpoint := "/rest/api/3/statuscategory"
  match c.mkRequest "GET" apiEndpoint none with
  | Except.error e =>
      { categories := none, resp := none, err := some e
      , calls := [Call.mkRequest "GET" apiEndpoint none] }
  | Except.ok req =>
      match c.doIntoList req with
      | (resp, Except.error e) =>
          { categories := none, resp := resp, err := some (NewJiraError resp e)
          , calls := [Call.mkRequest "GET" apiEndpoint none, Call.doCall req] }
      | (resp, Except.ok cats) =>
          { categories := cats, resp := resp, err := none
          , calls := [Call.mkRequest "GET" apiEndpoint none, Call.doCall req] }

/-- `Get` from the source: an empty identifier fails immediately with
`errors.New("jira: not status category set")` and no Transport call;
otherwise the endpoint is `fmt.Sprintf("/rest/api/3/statuscategory/%v", id)`,
which for a string argument is plain, unescaped concatenation; errors are
handled exactly as in `GetList`, and on success the pointer allocated by
`new(StatusCategory)` and filled by `Do` is returned. -/
def Get (c : Client) (statusCategoryID : String) : GetResult :=
  if statusCategoryID = "" then
    { category := none, resp := none
    , err := some (GoError.errMsg "jira: not status category set"), calls := [] }
  else
    let apiEndpoint := "/rest/api/3/statuscategory/" ++ statusCategoryID
    match c.mkRequest "GET" apiEndpoint none with
    | Except.error e =>
        { category := none, resp := none, err := some e
        , calls := [Call.mkRequest "GET" apiEndpoint none] }
    | Except.ok req =>
        match c.doIntoStatusCategory req with
        | (resp, Except.error e) =>
            { category := none, resp := resp, err := some (NewJiraError resp e)
            , calls := [Call.mkRequest "GET" apiEndpoint none, Call.doCall req] }
        | (resp, Except.ok cat) =>
            { category := some cat, resp := resp, err := none
            , calls := [Call.mkRequest "GET" apiEndpoint none, Call.doCall req] }

end StatusCategoryService

/-- The request-construction calls in a trace, as (method, url, body) triples. -/
def builtRequests (calls : List Call) : List (String × String × Option Json) :=
  calls.filterMap fun c =>
    match c with
    | Call.mkRequest m u b => some (m, u, b)
    | Call.doCall _ => none

/-- The executed (`Do`) requests in a trace. -/
def executedRequests (calls : List Call) : List Request :=
  calls.filterMap fun c =>
    match c with
    | Call.doCall req => some req
    | Call.mkRequest _ _ _ => none

/-- A Transport stand-in whose request construction always succeeds and whose
execution succeeds with an empty JSON array on the list endpoint and an empty
JSON object on every other path. -/
def okClient : Client :=
  { newRequestErr := fun _ _ _ => none
  , doReq := fun req =>
      if req.url = "/rest/api/3/statuscategory"
      then DoOutcome.success { statusCode := 200 } (Json.arr [])
      else DoOutcome.success { statusCode := 200 } (Json.obj []) }

/-- A Transport stand-in whose execution fails with a 404 response. -/
def notFoundClient : Client :=
  { newRequestErr := fun _ _ _ => none
  , doReq := fun _ =>
      DoOutcome.failure (some { statusCode := 404 }) (GoError.errMsg "404 Not Found") }

/-- A Transport stand-in whose request construction fails. -/
def badBaseClient : Client :=
  { newRequestErr := fun _ _ _ => some (GoError.errMsg "invalid base URL")
  , doReq := fun _ => DoOutcome.success { statusCode := 200 } Json.null }

/-- The Transport stand-in of the round-trip property: every execution
succeeds with the one-element JSON array of the specification. -/
def roundTripClient : Client :=
  { newRequestErr := fun _ _ _ => none
  , doReq := fun _ =>
      DoOutcome.success { statusCode := 200 }
        (Json.arr [Json.obj
          [ ("self", Json.str "http://x/1"), ("id", Json.num 1)
          , ("name", Json.str "To Do"), ("key", Json.str "new")
          , ("colorName", Json.str "blue-gray") ]]) }

/-- C1: for the empty identifier, `Get` fails immediately with the validation
error: nil category, nil response metadata, and an empty trace of Transport
calls (neither request construction nor execution happens). -/
theorem get_empty_id_validation (c : Client) :
    StatusCategoryService.Get c "" =
      { category := none, resp := none
      , err := some (GoError.errMsg "jira: not status category set")
      , calls := [] } := rfl

/-- C2, counterexample: the validation error of `Get("")` carries the message
"jira: not status category set", which differs from the message the claim
quotes ("no status category identifier set"). -/
theorem get_empty_id_message_counterexample :
    (StatusCategoryService.Get okClient "").err =
      some (GoError.errMsg "jira: not status category set") ∧
    "jira: not status category set" ≠ "no status category identifier set" :=
  ⟨rfl, by decide⟩

/-- C2, amended: the validation error produced by `Get` for an empty
identifier carries the message "jira: not status category set", naming the
missing status category parameter. -/
theorem get_empty_id_message (c : Client) :
    (StatusCategoryService.Get c "").err =
      some (GoError.errMsg "jira: not status category set") := rfl

/-- C3: for every non-empty identifier, `Get` builds exactly one GET request
whose path is the literal, unescaped concatenation of
"/rest/api/3/statuscategory/" and the identifier, with nil body; and when
request construction succeeds it executes exactly that one request. -/
theorem get_single_get_request (c : Client) (id : String) (hid : id ≠ "") :
    builtRequests (StatusCategoryService.Get c id).calls =
      [("GET", "/rest/api/3/statuscategory/" ++ id, none)] ∧
    (c.newRequestErr "GET" ("/rest/api/3/statuscategory/" ++ id) none = none →
      executedRequests (StatusCategoryService.Get c id).calls =
        [{ method := "GET", url := "/rest/api/3/statuscategory/" ++ id
         , body := none }]) := by
  simp only [StatusCategoryService.Get, if_neg hid, Client.mkRequest]
  constructor
  · cases h : c.newRequestErr "GET" ("/rest/api/3/statuscategory/" ++ id) none with
    | some e => simp [h, builtRequests]
    | none =>
        cases hdo : c.doIntoStatusCategory
            { method := "GET", url := "/rest/api/3/statuscategory/" ++ id
            , body := none } with
        | mk resp r =>
            cases r <;> simp [h, hdo, builtRequests]
  · intro hok
    cases hdo : c.doIntoStatusCategory
        { method := "GET", url := "/rest/api/3/statuscategory/" ++ id
        , body := none } with
    | mk resp r =>
        cases r <;> simp [hok, hdo, executedRequests]

/-- C3 witness: `Get` of the identifier "3" on a working Transport builds and
executes exactly one GET request for /rest/api/3/statuscategory/3. -/
theorem get_single_get_request_witness :
    builtRequests (StatusCategoryService.Get okClient "3").calls =
      [("GET", "/rest/api/3/statuscategory/" ++ "3", none)] ∧
    executedRequests (StatusCategoryService.Get okClient "3").calls =
      [{ method := "GET", url := "/rest/api/3/statuscategory/" ++ "3"
       , body := none }] :=
  ⟨(get_single_get_request okClient "3" (by decide)).1,
   (get_single_get_request okClient "3" (by decide)).2 rfl⟩

/-- C4: every `GetList` call builds exactly one GET request for the fixed
path "/rest/api/3/statuscategory" with nil body, regardless of the Transport;
and when request construction succeeds it executes exactly that one request. -/
theorem getlist_single_get_request (c : Client) :
    builtRequests (StatusCategoryService.GetList c).calls =
      [("GET", "/rest/api/3/statuscategory", none)] ∧
    (c.newRequestErr "GET" "/rest/api/3/statuscategory" none = none →
      executedRequests (StatusCategoryService.GetList c).calls =
        [{ method := "GET", url := "/rest/api/3/statuscategory"
         , body := none }]) := by
  simp only [StatusCategoryService.GetList, Client.mkRequest]
  constructor
  · cases h : c.newRequestErr "GET" "/rest/api/3/statuscategory" none with
    | some e => simp [h, builtRequests]
    | none =>
        cases hdo : c.doIntoList
            { method := "GET", url := "/rest/api/3/statuscategory"
            , body := none } with
        | mk resp r =>
            cases r <;> simp [h, hdo, builtRequests]
  · intro hok
    cases hdo : c.doIntoList
        { method := "GET", url := "/rest/api/3/statuscategory"
        , body := none } with
    | mk resp r =>
        cases r <;> simp [hok, hdo, executedRequests]

/-- C4 witness: `GetList` on a working Transport builds and executes exactly
one GET request for /rest/api/3/statuscategory with no body. -/
theorem getlist_single_get_request_witness :
    builtRequests (StatusCategoryService.GetList okClient).calls =
      [("GET", "/rest/api/3/statuscategory", none)] ∧
    executedRequests (StatusCategoryService.GetList okClient).calls =
      [{ method := "GET", url := "/rest/api/3/statuscategory"
       , body := none }] :=
  ⟨(getlist_single_get_request okClient).1,
   (getlist_single_get_request okClient).2 rfl⟩

/-- C5: whenever executing the request fails (transport fault or HTTP status
at least 300), both operations return a nil/empty value (nil slice for
`GetList`, nil pointer for `Get`) together with a non-nil API error that
wraps the response metadata. -/
theorem do_failure_wrapped_api_error (c c2 : Client) (id : String)
    (resp resp2 : Option Response) (e e2 : GoError) (hid : id ≠ "")
    (h1 : c.newRequestErr "GET" "/rest/api/3/statuscategory" none = none)
    (h2 : c.doReq { method := "GET", url := "/rest/api/3/statuscategory"
                  , body := none } = DoOutcome.failure resp e)
    (h3 : c2.newRequestErr "GET" ("/rest/api/3/statuscategory/" ++ id) none = none)
    (h4 : c2.doReq { method := "GET", url := "/rest/api/3/statuscategory/" ++ id
                   , body := none } = DoOutcome.failure resp2 e2) :
    (StatusCategoryService.GetList c).categories = none ∧
    (StatusCategoryService.GetList c).err = some (NewJiraError resp e) ∧
    (StatusCategoryService.Get c2 id).category = none ∧
    (StatusCategoryService.Get c2 id).err = some (NewJiraError resp2 e2) := by
  refine ⟨?_, ?_, ?_, ?_⟩ <;>
    simp [StatusCategoryService.GetList, StatusCategoryService.Get, if_neg hid,
      Client.mkRequest, Client.doIntoList, Client.doIntoStatusCategory,
      h1, h2, h3, h4]

/-- C5 witness: against a Transport that answers 404, `GetList` and
`Get("3")` return nil values and API errors wrapping the 404 response. -/
theorem do_failure_wrapped_api_error_witness :
    (StatusCategoryService.GetList notFoundClient).categories = none ∧
    (StatusCategoryService.GetList notFoundClient).err =
      some (NewJiraError (some { statusCode := 404 })
        (GoError.errMsg "404 Not Found")) ∧
    (StatusCategoryService.Get notFoundClient "3").category = none ∧
    (StatusCategoryService.Get notFoundClient "3").err =
      some (NewJiraError (some { statusCode := 404 })
        (GoError.errMsg "404 Not Found")) :=
  do_failure_wrapped_api_error notFoundClient notFoundClient "3"
    (some { statusCode := 404 }) (some { statusCode := 404 })
    (GoError.errMsg "404 Not Found") (GoError.errMsg "404 Not Found")
    (by decide) rfl rfl rfl rfl

/-- C6: when request construction fails, both operations propagate the
Transport's error unchanged — not wrapped — with nil value, nil response
metadata, and no executed request. -/
theorem mkrequest_failure_propagated (c c2 : Client) (id : String)
    (e e2 : GoError) (hid : id ≠ "")
    (h1 : c.newRequestErr "GET" "/rest/api/3/statuscategory" none = some e)
    (h2 : c2.newRequestErr "GET" ("/rest/api/3/statuscategory/" ++ id) none = some e2) :
    StatusCategoryService.GetList c =
      { categories := none, resp := none, err := some e
      , calls := [Call.mkRequest "GET" "/rest/api/3/statuscategory" none] } ∧
    StatusCategoryService.Get c2 id =
      { category := none, resp := none, err := some e2
      , calls := [Call.mkRequest "GET"
          ("/rest/api/3/statuscategory/" ++ id) none] } := by
  constructor <;>
    simp [StatusCategoryService.GetList, StatusCategoryService.Get, if_neg hid,
      Client.mkRequest, h1, h2]

/-- C6 witness: against a Transport whose request construction fails,
`GetList` and `Get("3")` return that error as-is with nil value and nil
response. -/
theorem mkrequest_failure_propagated_witness :
    StatusCategoryService.GetList badBaseClient =
      { categories := none, resp := none
      , err := some (GoError.errMsg "invalid base URL")
      , calls := [Call.mkRequest "GET" "/rest/api/3/statuscategory" none] } ∧
    StatusCategoryService.Get badBaseClient "3" =
      { category := none, resp := none
      , err := some (GoError.errMsg "invalid base URL")
      , calls := [Call.mkRequest "GET"
          ("/rest/api/3/statuscategory/" ++ "3") none] } :=
  mkrequest_failure_propagated badBaseClient badBaseClient "3"
    (GoError.errMsg "invalid base URL") (GoError.errMsg "invalid base URL")
    (by decide) rfl rfl

/-- C7: the four well-known key constants have exactly the values "done",
"indeterminate", "new" and "undefined". -/
theorem wellknown_key_constants :
    StatusCategoryComplete = "done" ∧
    StatusCategoryInProgress = "indeterminate" ∧
    StatusCategoryToDo = "new" ∧
    StatusCategoryUndefined = "undefined" :=
  ⟨rfl, rfl, rfl, rfl⟩

/-- C8: round-trip — when the Transport's successful body is the JSON array
[{"self":"http://x/1","id":1,"name":"To Do","key":"new","colorName":"blue-gray"}]
and is deserialized with the case-sensitive field mapping, `GetList` returns
the one-element sequence with exactly those field values, in server order. -/
theorem getlist_roundtrip :
    (StatusCategoryService.GetList roundTripClient).categories =
      some [{ Self := "http://x/1", ID := 1, Name := "To Do"
            , Key := "new", ColorName := "blue-gray" }] ∧
    (StatusCategoryService.GetList roundTripClient).err = none := by
  constructor <;> rfl

/-- C9: whenever `Get` returns a nil error, the returned category pointer is
non-nil — `Get` never returns a nil category together with a nil error. -/
theorem get_success_category_nonnil (c : Client) (id : String)
    (h : (StatusCategoryService.Get c id).err = none) :
    (StatusCategoryService.Get c id).category.isSome := by
  by_cases hid : id = ""
  · rw [hid] at h
    simp [StatusCategoryService.Get] at h
  · simp only [StatusCategoryService.Get, if_neg hid] at h ⊢
    cases hr : Client.mkRequest c "GET" ("/rest/api/3/statuscategory/" ++ id) none with
    | error e => simp [hr] at h
    | ok req =>
        cases hdo : c.doIntoStatusCategory req with
        | mk resp r =>
            cases r with
            | error e => simp [hr, hdo] at h
            | ok cat => simp [hr, hdo]

/-- C9 witness: on a working Transport, `Get("3")` returns a nil error and a
non-nil category. -/
theorem get_success_category_nonnil_witness :
    (StatusCategoryService.Get okClient "3").err = none ∧
    (StatusCategoryService.Get okClient "3").category.isSome :=
  ⟨rfl, get_success_category_nonnil okClient "3" rfl⟩

/-- C10: on an execution failure, both operations return the same response
metadata through both channels: the second return value is exactly the
response embedded in the wrapped API error. -/
theorem do_failure_resp_both_channels (c c2 : Client) (id : String)
    (resp resp2 : Option Response) (e e2 : GoError) (hid : id ≠ "")
    (h1 : c.newRequestErr "GET" "/rest/api/3/statuscategory" none = none)
    (h2 : c.doReq { method := "GET", url := "/rest/api/3/statuscategory"
                  , body := none } = DoOutcome.failure resp e)
    (h3 : c2.newRequestErr "GET" ("/rest/api/3/statuscategory/" ++ id) none = none)
    (h4 : c2.doReq { method := "GET", url := "/rest/api/3/statuscategory/" ++ id
                   , body := none } = DoOutcome.failure resp2 e2) :
    (StatusCategoryService.GetList c).err =
      some (GoError.jiraError (StatusCategoryService.GetList c).resp e) ∧
    (StatusCategoryService.Get c2 id).err =
      some (GoError.jiraError (StatusCategoryService.Get c2 id).resp e2) := by
  constructor <;>
    simp [StatusCategoryService.GetList, StatusCategoryService.Get, if_neg hid,
      Client.mkRequest, Client.doIntoList, Client.doIntoStatusCategory,
      NewJiraError, h1, h2, h3, h4]

/-- C10 witness: against a Transport answering 404, the response returned by
each operation equals the response inside its wrapped API error. -/
theorem do_failure_resp_both_channels_witness :
    (StatusCategoryService.GetList notFoundClient).err =
      some (GoError.jiraError (StatusCategoryService.GetList notFoundClient).resp
        (GoError.errMsg "404 Not Found")) ∧
    (StatusCategoryService.Get notFoundClient "3").err =
      some (GoError.jiraError (StatusCategoryService.Get notFoundClient "3").resp
        (GoError.errMsg "404 Not Found")) :=
  do_failure_resp_both_channels notFoundClient notFoundClient "3"
    (some { statusCode := 404 }) (some { statusCode := 404 })
    (GoError.errMsg "404 Not Found") (GoError.errMsg "404 Not Found")
    (by decide) rfl rfl rfl rfl
